import Mathlib

/-!
Verification of the Glassy-Crystal-Box test-runner core: a shallow embedding
of the suite/test-case data model (src/suite.py), the process runner and
language-extension mapping (src/common.py), the backend execution and result
mapping (src/generators/backend.py, src/generators/python_backend.py) and the
pipeline orchestration (src/generators/code_pipeline.py, crystalbox.py),
together with theorems settling the specification's claims about them.
-/

namespace CrystalBox

/-- Python whitespace characters stripped by `str.rstrip()` (ASCII subset:
space, tab, newline, vertical tab, form feed, carriage return). -/
def pyIsSpace (c : Char) : Bool :=
  c = ' ' || c = '\t' || c = '\n' || c = '\x0b' || c = '\x0c' || c = '\r'

/-- Embedding of Python's `s.rstrip()`: remove all trailing whitespace. -/
def pyRstrip (s : String) : String :=
  String.mk ((s.data.reverse.dropWhile pyIsSpace).reverse)

/-- Test statuses, from `TestStatus` in src/suite.py. -/
inductive TestStatus
  | PASSED
  | FAILED
  | NOT_RUN
deriving DecidableEq, Repr

/-- Heterogeneous scalar input values a test case can carry (numbers,
strings, booleans), with their Python `str()` rendering. -/
inductive PyValue
  | int (n : Int)
  | str (s : String)
  | bool (b : Bool)
deriving DecidableEq, Repr

/-- Python `str()` on a scalar value. -/
def PyValue.toStr : PyValue → String
  | .int n => toString n
  | .str s => s
  | .bool b => if b then "True" else "False"

/-- Embedding of the dataclass `TestCaseDescription` of src/suite.py.
`stdout`/`stderr` are `none` until captured; `expected_output` is already the
string form (`__post_init__` applies `str(...)`, see `mkTestCase`). -/
structure TestCaseDescription where
  test_id : Nat
  inputs : List PyValue
  expected_output : String
  stdout : Option String := none
  stderr : Option String := none
  status : TestStatus := .NOT_RUN
deriving DecidableEq, Repr

/-- Construction of a test case as `Suite.__init__` does it: the expected
output passes through `__post_init__`, which normalizes it with `str(...)`. -/
def mkTestCase (id : Nat) (ins : List PyValue) (expected : PyValue) :
    TestCaseDescription :=
  { test_id := id, inputs := ins, expected_output := expected.toStr }

/-- `TestCaseDescription.evaluate` (src/suite.py lines 58-60): the status
becomes `PASSED` exactly when the captured stdout equals the expected output
(`None` never equals a string), else `FAILED`. -/
def TestCaseDescription.evaluate (tc : TestCaseDescription) :
    TestCaseDescription :=
  { tc with status :=
      if tc.stdout = some tc.expected_output then .PASSED else .FAILED }

/-- Embedding of the `Suite` class of src/suite.py: source file name, function
name, owned test cases, optional suite-level stderr lines, and the three
counters (zero at construction). -/
structure Suite where
  source_file_name : String
  function_name : String
  stderr_lines : Option (List String) := none
  tests : List TestCaseDescription
  passed : Nat := 0
  failed : Nat := 0
  not_run : Nat := 0
deriving DecidableEq, Repr

/-- `Suite.__init__`: builds the test cases from the configured
(input list, expected output) pairs with 1-based ids, counters zero. -/
def mkSuite (src fn : String) (cases : List (List PyValue × PyValue)) :
    Suite :=
  { source_file_name := src
    function_name := fn
    tests := (List.range cases.length).zip cases |>.map
      (fun p => mkTestCase (p.1 + 1) p.2.1 p.2.2) }

/-- Loop body of `Suite.evaluate_tests` (src/suite.py lines 136-145): each
case is evaluated in order, and exactly the counter matching its new status is
incremented. Returns the evaluated cases and the three counter increments. -/
def evaluateTestsAux : List TestCaseDescription →
    List TestCaseDescription × Nat × Nat × Nat
  | [] => ([], 0, 0, 0)
  | tc :: rest =>
    let tc2 := tc.evaluate
    let (rest2, p, f, n) := evaluateTestsAux rest
    (tc2 :: rest2,
      (if tc2.status = .PASSED then p + 1 else p),
      (if tc2.status = .FAILED then f + 1 else f),
      (if tc2.status = .NOT_RUN then n + 1 else n))

/-- `Suite.evaluate_tests`: evaluates every case and accumulates the counters
on top of their current values. -/
def Suite.evaluate_tests (s : Suite) : Suite :=
  let (ts, p, f, n) := evaluateTestsAux s.tests
  { s with tests := ts
           passed := s.passed + p
           failed := s.failed + f
           not_run := s.not_run + n }

/-- The normalization applied to each output line before it is stored as a
case's stdout (src/generators/backend.py line 107):
`test_output.rstrip() or <empty>` — trailing whitespace stripped, and an
empty result replaced by the `<empty>` sentinel. -/
def normLine (l : String) : String :=
  let r := pyRstrip l
  if r = "" then "<empty>" else r

/-- Result-mapping loop of `Backend.execute` (src/generators/backend.py lines
103-107): `zip_longest(run_result.output, suite.tests, fillvalue=m)` with
`m = <missing output>`, assigning `test_case.stdout = test_output.rstrip() or
<empty>` for each pair. When the output list is shorter, the fill string
stands in for the missing output line; when the test-case list is shorter,
the fill string stands in for the test case, and the attribute assignment on
a plain string raises `AttributeError` — embedded as `none`. -/
def setOutputs : List String → List TestCaseDescription →
    Option (List TestCaseDescription)
  | [], [] => some []
  | o :: os, tc :: tcs =>
    (setOutputs os tcs).map
      (fun r => { tc with stdout := some (normLine o) } :: r)
  | [], tc :: tcs =>
    (setOutputs [] tcs).map
      (fun r => { tc with stdout := some (normLine "<missing output>") } :: r)
  | _ :: _, [] => none

/-- `ProcessResult` of src/common.py: exit code plus captured output lines. -/
structure ProcessResult where
  exit_code : Int
  output : List String
deriving DecidableEq, Repr

/-- `run_process` of src/common.py (lines 58-84), over the abstract behavior
of the child process: the raw lines the merged stdout/stderr stream yields
(each still carrying its terminator) and the exit code. Every line is
appended after `line.rstrip()`. -/
def run_process (exitCode : Int) (rawLines : List String) : ProcessResult :=
  { exit_code := exitCode, output := rawLines.map pyRstrip }

/-- `ProgrammingLanguage` of src/common.py. -/
inductive ProgrammingLanguage
  | c
  | cpp
  | go
  | java
  | javascript
  | python
  | ruby
deriving DecidableEq, Repr

/-- The `StrEnum` value of a language (lowercase member name, via `auto()`). -/
def ProgrammingLanguage.toStr : ProgrammingLanguage → String
  | .c => "c"
  | .cpp => "cpp"
  | .go => "go"
  | .java => "java"
  | .javascript => "javascript"
  | .python => "python"
  | .ruby => "ruby"

/-- Colors of src/text_utils.py, valued at the ANSI escape sequences the
colorama foreground constants stand for (`DEFAULT` is `Fore.RESET`). -/
inductive Color
  | DEFAULT
  | RED
  | YELLOW
  | CYAN
  | LIGHT_BLUE
  | LIGHT_CYAN
  | LIGHT_GREEN
  | LIGHT_MAGENTA
  | LIGHT_RED
  | LIGHT_YELLOW
deriving DecidableEq, Repr

/-- ANSI escape string of each color constant. -/
def Color.code : Color → String
  | .DEFAULT => "\x1b[39m"
  | .RED => "\x1b[31m"
  | .YELLOW => "\x1b[33m"
  | .CYAN => "\x1b[36m"
  | .LIGHT_BLUE => "\x1b[94m"
  | .LIGHT_CYAN => "\x1b[96m"
  | .LIGHT_GREEN => "\x1b[92m"
  | .LIGHT_MAGENTA => "\x1b[95m"
  | .LIGHT_RED => "\x1b[91m"
  | .LIGHT_YELLOW => "\x1b[93m"

/-- `colorize` of src/text_utils.py. -/
def colorize (item : String) (color : Color) : String :=
  if color = Color.DEFAULT then item
  else color.code ++ item ++ Color.DEFAULT.code

/-- `make_banner` of src/text_utils.py: a three-line banner around the text,
border length `len(text) + 4`. -/
def make_banner (text bannerChar : String) (color : Color) : String :=
  let border := String.join (List.replicate (text.length + 4) bannerChar)
  colorize (border ++ "\n" ++ bannerChar ++ " " ++ text ++ " " ++ bannerChar
    ++ "\n" ++ border) color

/-- `print_error` of src/text_utils.py renders this message. -/
def printErrorMsg (msg : String) : String :=
  colorize ("ERROR: " ++ msg ++ ".") Color.LIGHT_RED

/-- `print_critical` of src/text_utils.py renders this message. -/
def printCriticalMsg (msg : String) : String :=
  colorize ("TOOL ERROR: " ++ msg) Color.RED

/-- The `StrEnum` value of a status, as `f-string` interpolation renders it. -/
def TestStatus.toStr : TestStatus → String
  | .PASSED => "Passed"
  | .FAILED => "Failed"
  | .NOT_RUN => "Not Run"

/-- `_status_colors_field` of `TestCaseDescription` in src/suite.py. -/
def statusColor : TestStatus → Color
  | .PASSED => Color.LIGHT_GREEN
  | .FAILED => Color.LIGHT_RED
  | .NOT_RUN => Color.LIGHT_YELLOW

/-- Python `f-string` rendering of an optional string (`None` when absent). -/
def optStr : Option String → String
  | none => "None"
  | some s => s

/-- `TestCaseDescription._get_expected_vs_actual_string` of src/suite.py. -/
def expectedVsActualString (tc : TestCaseDescription) : String :=
  colorize "Expected:" Color.LIGHT_RED ++ " " ++ tc.expected_output ++ "\n"
    ++ colorize "Actual:" Color.LIGHT_RED ++ " " ++ optStr tc.stdout

/-- `TestCaseDescription._get_stderr_string` of src/suite.py. -/
def stderrString (e : String) : String :=
  colorize "There were also other errors:" Color.RED ++ "\n\n"
    ++ colorize e Color.RED

/-- The `lines` list built by `TestCaseDescription.to_color_string`
(src/suite.py lines 62-68), including the conditional appends for a failed
status and for truthy stderr. -/
def to_color_string_lines (tc : TestCaseDescription) : List String :=
  let base := [
    make_banner ("Test #" ++ toString tc.test_id) "-" Color.LIGHT_MAGENTA,
    "",
    colorize "Input Params:" Color.YELLOW ++ " "
      ++ String.intercalate ", " (tc.inputs.map PyValue.toStr),
    colorize ("Test " ++ tc.status.toStr ++ "!") (statusColor tc.status)]
  let withFail :=
    if tc.status = TestStatus.FAILED then base ++ [expectedVsActualString tc]
    else base
  match tc.stderr with
  | some e => if e ≠ "" then withFail ++ [stderrString e] else withFail
  | none => withFail

/-- `TestCaseDescription.to_color_string`: the lines joined with newlines. -/
def to_color_string (tc : TestCaseDescription) : String :=
  String.intercalate "\n" (to_color_string_lines tc)

/-- A parsed template: literal pieces and named placeholders, the shape
`string.Template` substitution operates on. -/
inductive TemplatePart
  | lit (s : String)
  | hole (name : String)
deriving DecidableEq, Repr

/-- `Template.substitute`: every placeholder is replaced by its mapped value;
an unresolved placeholder is an error (`KeyError`), embedded as `none`. -/
def substituteParts (m : List (String × String)) :
    List TemplatePart → Option String
  | [] => some ""
  | TemplatePart.lit s :: rest =>
    (substituteParts m rest).map (fun r => s ++ r)
  | TemplatePart.hole name :: rest =>
    match (m.lookup name) with
    | some v => (substituteParts m rest).map (fun r => v ++ r)
    | none => none

/-- The substitution mapping `PythonBackend.generate_script` (lines 29-36 of
src/generators/python_backend.py) fills the per-case `test` template with:
the 1-based index, the function name, and the comma-joined `str` rendering of
the case's input arguments. -/
def pythonTestSubst (fn : String) (i : Nat) (tc : TestCaseDescription) :
    List (String × String) :=
  [("index", toString i),
   ("function", fn),
   ("args", String.intercalate ", " (tc.inputs.map PyValue.toStr))]

/-- `PythonBackend.get_run_command` (src/generators/python_backend.py lines
19-24) over an abstract `shutil.which` environment: the first of
`py`, `python`, `python3` that resolves, applied to the tester script, or
`none` when no interpreter is found. -/
def pythonGetRunCommand (which : String → Bool) (testerScript : String) :
    Option String :=
  (["py", "python", "python3"].find? which).map
    (fun cmd => cmd ++ " " ++ testerScript)

/-- The extension table of `LanguageExtensionMapping` in src/common.py
(member names are the uppercase extensions). -/
def extLookup : String → Option ProgrammingLanguage
  | "C" => some .c
  | "CPP" => some .cpp
  | "GO" => some .go
  | "JAVA" => some .java
  | "JS" => some .javascript
  | "MJS" => some .javascript
  | "PY" => some .python
  | "RB" => some .ruby
  | _ => none

/-- Python's `str.upper()` over ASCII letters, character by character. -/
def pyUpper (s : String) : String :=
  String.mk (s.data.map Char.toUpper)

/-- `LanguageExtensionMapping.from_extension` (src/common.py lines 44-50):
looks the extension up after `ext.upper()`; on a miss it prints the critical
"not supported" message and re-raises the `KeyError`, embedded as the error
carrying that message. -/
def from_extension (ext : String) : Except String ProgrammingLanguage :=
  match extLookup (pyUpper ext) with
  | some lang => .ok lang
  | none => .error (printCriticalMsg
      ("\nFile extension \"" ++ ext ++ "\" not supported.\n"))

/-- Python's `str.split(sep)` for a single-character separator, over the
character list (always returns at least one group). -/
def splitOnChar (sep : Char) : List Char → List (List Char)
  | [] => [[]]
  | c :: rest =>
    let r := splitOnChar sep rest
    if c = sep then [] :: r
    else
      match r with
      | [] => [[c]]
      | g :: gs => (c :: g) :: gs

/-- `CodePipeline.__init__` takes the extension as
`suite.source_file_name.split('.')[-1]`: the last dot-separated group. -/
def fileExtension (name : String) : String :=
  String.mk ((splitOnChar '.' name.data).getLastD [])

/-- The uncaught exceptions a pipeline step can raise: the `KeyError`
re-raised by `from_extension` (after printing the critical message it
carries), the `TypeError` from instantiating an abstract class, and the
`ImportError` raised at the end of `get_backend` when no class matches. -/
inductive PipelineError
  | keyError (msg : String)
  | typeError
  | importError (lang : ProgrammingLanguage)
deriving DecidableEq, Repr

/-- The type of constructed backend instances. It is empty in this source:
every concrete class leaves abstract members of `Backend` unimplemented
(`PythonBackend` and `JavascriptBackend` define `get_run_command` but not
the abstract `run_command` property, and `PythonBackend` implements neither
`get_and_fill_script_template` nor `get_and_fill_tests_template`;
`CompiledBackend` is itself abstract), so no `Backend()` call can succeed. -/
inductive BackendInstance : Type

/-- `get_backend` of src/generators/backend_provider.py: scans the generator
classes for one whose `LANGUAGE` class attribute equals the requested
language and instantiates it. For `python`, `PythonBackend` declares
`LANGUAGE = PYTHON` and is matched, but instantiating it raises `TypeError`
(abstract members unimplemented — not an `ImportError`, so not caught). For
every other language no class matches (`JavascriptBackend` sets only
`self.language` inside `__init__`, never a `LANGUAGE` class attribute), so
the scan falls through to the final `ImportError`. -/
def get_backend (lang : ProgrammingLanguage) :
    Except PipelineError BackendInstance :=
  match lang with
  | .python => .error PipelineError.typeError
  | l => .error (PipelineError.importError l)

/-- One iteration of main's suite loop: `CodePipeline(suite)` followed by
`.execute()` (crystalbox.py lines 18-20, code_pipeline.py). Construction
resolves the language from the source file extension (raising on an
unsupported one) and then calls `get_backend`, which fails for every
language in this source. Had construction succeeded, `.execute()` would
raise `AttributeError` calling `execute_pipeline` — a method no `Backend`
defines — before `evaluate_tests` could run; the success value would be the
evaluated, reported suite. -/
def runSuite (s : Suite) : Except PipelineError Suite :=
  match from_extension (fileExtension s.source_file_name) with
  | .error msg => .error (PipelineError.keyError msg)
  | .ok lang =>
    match get_backend lang with
    | .error e => .error e
    | .ok b => nomatch b

/-- The suite loop of `main` in crystalbox.py: suites are processed in
order; the loop has no exception handler, so the first pipeline error
propagates out of `main` and the run stops there. Returns the suites that
completed their pipeline and the propagated error, if any. -/
def processSuites : List Suite → List Suite × Option PipelineError
  | [] => ([], none)
  | s :: rest =>
    match runSuite s with
    | .error e => ([], some e)
    | .ok s2 =>
      let (ls, err) := processSuites rest
      (s2 :: ls, err)

/-! ## Helper lemmas -/

/-- Stripping trailing whitespace is idempotent. -/
theorem pyRstrip_idem (s : String) : pyRstrip (pyRstrip s) = pyRstrip s := by
  simp [pyRstrip, List.dropWhile_idempotent]

/-- A test case with unset stdout evaluates to `FAILED`. -/
theorem evaluate_of_stdout_none {tc : TestCaseDescription}
    (h : tc.stdout = none) : tc.evaluate.status = TestStatus.FAILED := by
  simp [TestCaseDescription.evaluate, h]

/-! ## Claim theorems -/

/-- C6: `evaluate` is idempotent — invoking it a second time with the
captured output unchanged yields the same status (indeed the same case). -/
theorem evaluate_idempotent (tc : TestCaseDescription) :
    tc.evaluate.evaluate = tc.evaluate := by
  simp [TestCaseDescription.evaluate]

/-- C9: after any invocation of `evaluate` the status is `PASSED` or
`FAILED`, never `NOT_RUN`; in particular a case whose stdout was never set
evaluates to `FAILED`. -/
theorem evaluate_never_not_run (tc : TestCaseDescription) :
    tc.evaluate.status ≠ TestStatus.NOT_RUN ∧
      (tc.stdout = none → tc.evaluate.status = TestStatus.FAILED) := by
  constructor
  · simp only [TestCaseDescription.evaluate]
    split <;> simp
  · exact fun h => evaluate_of_stdout_none h

/-- Witness for C9 at a concrete case whose stdout is unset. -/
theorem evaluate_never_not_run_witness :
    (mkTestCase 1 [PyValue.int 2] (PyValue.str "5")).evaluate.status
      = TestStatus.FAILED :=
  (evaluate_never_not_run (mkTestCase 1 [PyValue.int 2] (PyValue.str "5"))).2
    rfl

/-- C10: every line `run_process` returns has its trailing whitespace
already stripped — stripping it again changes nothing. -/
theorem run_process_output_rstripped (exitCode : Int)
    (rawLines : List String) :
    ∀ l ∈ (run_process exitCode rawLines).output, l = pyRstrip l := by
  intro l hl
  simp only [run_process, List.mem_map] at hl
  obtain ⟨r, _, rfl⟩ := hl
  exact (pyRstrip_idem r).symm

/-- Witness for C10 at a concrete raw line carrying a newline terminator. -/
theorem run_process_output_rstripped_witness : "a" = pyRstrip "a" :=
  run_process_output_rstripped 0 ["a \n"] "a" (by decide)

/-- C5: evaluation is a pure function of (stdout, expected output); a case
whose stdout was set from a captured line passes exactly when the normalized
line (trailing whitespace trimmed, empty replaced by the `<empty>` sentinel)
equals the expected output; the sentinel is distinct from the empty string;
and the expected output is normalized to its textual representation at
construction. -/
theorem case_evaluation_spec :
    (∀ tc1 tc2 : TestCaseDescription, tc1.stdout = tc2.stdout →
      tc1.expected_output = tc2.expected_output →
      tc1.evaluate.status = tc2.evaluate.status) ∧
    (∀ (tc : TestCaseDescription) (l : String),
      ({ tc with stdout := some (normLine l) } :
          TestCaseDescription).evaluate.status = TestStatus.PASSED ↔
        normLine l = tc.expected_output) ∧
    (∀ l : String, pyRstrip l = "" → normLine l = "<empty>") ∧
    (∀ l : String, pyRstrip l ≠ "" → normLine l = pyRstrip l) ∧
    ("<empty>" : String) ≠ "" ∧
    (∀ (id : Nat) (ins : List PyValue) (v : PyValue),
      (mkTestCase id ins v).expected_output = v.toStr) := by
  refine ⟨?_, ?_, ?_, ?_, by decide, fun id ins v => rfl⟩
  · intro tc1 tc2 h1 h2
    simp [TestCaseDescription.evaluate, h1, h2]
  · intro tc l
    simp [TestCaseDescription.evaluate]
  · intro l h
    simp [normLine, h]
  · intro l h
    simp [normLine, h]

/-- Witness for C5: a captured line with trailing whitespace passes against
the expected string it trims to. -/
theorem case_evaluation_spec_witness :
    ({ mkTestCase 1 [] (PyValue.str "5") with stdout := some (normLine "5 ") } :
        TestCaseDescription).evaluate.status = TestStatus.PASSED :=
  (case_evaluation_spec.2.1 (mkTestCase 1 [] (PyValue.str "5")) "5 ").mpr
    (by decide)

/-- C1 (code bug): the spec says extra output lines are discarded, but the
`zip_longest` mapping loop pads the shorter test-case list with the string
fill value and then assigns `.stdout` on that string — an `AttributeError`.
At 3 captured lines and 2 configured cases the mapping is the error value
(`none`); with no extra line the very same suite maps fine. -/
theorem extra_output_lines_error :
    setOutputs ["o1", "o2", "o3"]
      [mkTestCase 1 [] (PyValue.str "a"), mkTestCase 2 [] (PyValue.str "b")]
      = none ∧
    (setOutputs ["o1", "o2"]
      [mkTestCase 1 [] (PyValue.str "a"), mkTestCase 2 [] (PyValue.str "b")]
      ).isSome = true := by
  constructor
  · rfl
  · rfl

/-- The three counter increments of the evaluation loop always sum to the
number of cases: each evaluated case bumps exactly one counter. -/
theorem evaluateTestsAux_sum (ts : List TestCaseDescription) :
    (evaluateTestsAux ts).2.1 + (evaluateTestsAux ts).2.2.1
      + (evaluateTestsAux ts).2.2.2 = ts.length := by
  induction ts with
  | nil => rfl
  | cons tc rest ih =>
    simp only [evaluateTestsAux]
    rcases h : evaluateTestsAux rest with ⟨rest2, p, f, n⟩
    rw [h] at ih
    simp only at ih
    cases hst : tc.evaluate.status <;> simp [hst, List.length_cons] <;> omega

/-- C4: for a suite whose counters are zero (as at construction; neither the
backend run nor the result mapping touches them), one invocation of
`evaluate_tests` leaves passed + failed + not-run equal to the number of
configured test cases. -/
theorem counters_sum_to_case_count (s : Suite)
    (hp : s.passed = 0) (hf : s.failed = 0) (hn : s.not_run = 0) :
    s.evaluate_tests.passed + s.evaluate_tests.failed
      + s.evaluate_tests.not_run = s.tests.length := by
  have hsum := evaluateTestsAux_sum s.tests
  simp only [Suite.evaluate_tests]
  rcases h : evaluateTestsAux s.tests with ⟨ts, p, f, n⟩
  rw [h] at hsum
  simp only at hsum
  simp [hp, hf, hn]
  omega

/-- Witness for C4 at a concrete freshly constructed two-case suite. -/
theorem counters_sum_to_case_count_witness :
    (mkSuite "add.py" "add"
        [([PyValue.int 2, PyValue.int 3], PyValue.str "5"),
         ([PyValue.int 1], PyValue.int 7)]).evaluate_tests.passed
      + (mkSuite "add.py" "add"
        [([PyValue.int 2, PyValue.int 3], PyValue.str "5"),
         ([PyValue.int 1], PyValue.int 7)]).evaluate_tests.failed
      + (mkSuite "add.py" "add"
        [([PyValue.int 2, PyValue.int 3], PyValue.str "5"),
         ([PyValue.int 1], PyValue.int 7)]).evaluate_tests.not_run
      = (mkSuite "add.py" "add"
        [([PyValue.int 2, PyValue.int 3], PyValue.str "5"),
         ([PyValue.int 1], PyValue.int 7)]).tests.length :=
  counters_sum_to_case_count
    (mkSuite "add.py" "add"
      [([PyValue.int 2, PyValue.int 3], PyValue.str "5"),
       ([PyValue.int 1], PyValue.int 7)]) rfl rfl rfl

/-- The fill value passes through the line normalization unchanged. -/
theorem normLine_missing : normLine "<missing output>" = "<missing output>" := by
  decide

/-- Pointwise characterization of the mapping loop when the output does not
exceed the case count: case `i` receives the normalization of line `i`, with
the `zip_longest` fill standing in for a missing line. -/
theorem setOutputs_get (outs : List String) (tcs : List TestCaseDescription)
    (h : outs.length ≤ tcs.length) :
    ∃ tcs2, setOutputs outs tcs = some tcs2 ∧ tcs2.length = tcs.length ∧
      ∀ i : Nat, tcs2[i]? = (tcs[i]?).map (fun tc =>
        { tc with
          stdout := some (normLine ((outs[i]?).getD "<missing output>")) }) := by
  induction tcs generalizing outs with
  | nil =>
    have houts : outs = [] := List.eq_nil_of_length_eq_zero (Nat.le_zero.mp h)
    subst houts
    exact ⟨[], rfl, rfl, fun i => by simp⟩
  | cons tc tcs ih =>
    cases outs with
    | nil =>
      obtain ⟨tcs2, heq, hlen, hget⟩ := ih [] (Nat.zero_le _)
      refine ⟨{ tc with stdout := some (normLine "<missing output>") } :: tcs2,
        ?_, ?_, ?_⟩
      · simp only [setOutputs, heq]
        rfl
      · simp [hlen]
      · intro i
        cases i with
        | zero => simp
        | succ j => simpa using hget j
    | cons o os =>
      obtain ⟨tcs2, heq, hlen, hget⟩ := ih os (by simpa using h)
      refine ⟨{ tc with stdout := some (normLine o) } :: tcs2, ?_, ?_, ?_⟩
      · simp only [setOutputs, heq]
        rfl
      · simp [hlen]
      · intro i
        cases i with
        | zero => simp
        | succ j => simpa using hget j

/-- C2: with fewer captured lines than configured cases the mapping is
strictly positional — case `i` receives line `i` (normalized per the source:
trailing whitespace stripped, empty line replaced by the `<empty>` sentinel)
and every case past the captured lines receives the `<missing output>`
sentinel, never a repeated or shifted earlier line. -/
theorem mapping_positional_with_sentinel (outs : List String)
    (tcs : List TestCaseDescription) (h : outs.length < tcs.length) :
    ∃ tcs2, setOutputs outs tcs = some tcs2 ∧ tcs2.length = tcs.length ∧
      (∀ i : Nat, (hi : i < outs.length) → (hit : i < tcs.length) →
        tcs2[i]? = some { tcs.get ⟨i, hit⟩ with
          stdout := some (normLine (outs.get ⟨i, hi⟩)) }) ∧
      (∀ i : Nat, outs.length ≤ i → (hit : i < tcs.length) →
        tcs2[i]? = some { tcs.get ⟨i, hit⟩ with
          stdout := some "<missing output>" }) := by
  obtain ⟨tcs2, heq, hlen, hget⟩ := setOutputs_get outs tcs (Nat.le_of_lt h)
  refine ⟨tcs2, heq, hlen, ?_, ?_⟩
  · intro i hi hit
    have := hget i
    rw [List.getElem?_eq_getElem hi, List.getElem?_eq_getElem hit] at this
    simpa using this
  · intro i hi hit
    have this := hget i
    have houts : outs[i]? = none := List.getElem?_eq_none hi
    rw [houts, List.getElem?_eq_getElem hit] at this
    simpa [normLine_missing] using this

/-- Witness for C2: two captured lines against three configured cases — the
third case gets the missing-output sentinel, not a repeated line. -/
theorem mapping_positional_with_sentinel_witness :
    ∃ tcs2, setOutputs ["o1", "o2"]
        [mkTestCase 1 [] (PyValue.str "a"), mkTestCase 2 [] (PyValue.str "b"),
         mkTestCase 3 [] (PyValue.str "c")] = some tcs2 ∧
      tcs2.length = 3 ∧
      (∀ i : Nat, (hi : i < (["o1", "o2"] : List String).length) →
        (hit : i < ([mkTestCase 1 [] (PyValue.str "a"),
          mkTestCase 2 [] (PyValue.str "b"),
          mkTestCase 3 [] (PyValue.str "c")] :
            List TestCaseDescription).length) →
        tcs2[i]? = some { ([mkTestCase 1 [] (PyValue.str "a"),
            mkTestCase 2 [] (PyValue.str "b"),
            mkTestCase 3 [] (PyValue.str "c")] :
              List TestCaseDescription).get ⟨i, hit⟩ with
          stdout := some (normLine ((["o1", "o2"] : List String).get
            ⟨i, hi⟩)) }) ∧
      (∀ i : Nat, (["o1", "o2"] : List String).length ≤ i →
        (hit : i < ([mkTestCase 1 [] (PyValue.str "a"),
          mkTestCase 2 [] (PyValue.str "b"),
          mkTestCase 3 [] (PyValue.str "c")] :
            List TestCaseDescription).length) →
        tcs2[i]? = some { ([mkTestCase 1 [] (PyValue.str "a"),
            mkTestCase 2 [] (PyValue.str "b"),
            mkTestCase 3 [] (PyValue.str "c")] :
              List TestCaseDescription).get ⟨i, hit⟩ with
          stdout := some "<missing output>" }) :=
  mapping_positional_with_sentinel ["o1", "o2"]
    [mkTestCase 1 [] (PyValue.str "a"), mkTestCase 2 [] (PyValue.str "b"),
     mkTestCase 3 [] (PyValue.str "c")] (by decide)

/-- C3 (code bug): the claim's toolchain-absent scenario can never
materialize in this source. Run-command resolution itself does yield no
command when no interpreter is installed (first conjunct), but the pipeline
aborts long before reaching it: for a python suite, `get_backend` raises
`TypeError` instantiating the abstract `PythonBackend`, so the run ends with
no report, no "could not be run" message, and no per-case statuses at all —
instead of the claimed zero passed / zero failed / all Not Run report. -/
theorem toolchain_absent_pipeline_crash :
    pythonGetRunCommand (fun _ => false) "python_runner.py" = none ∧
    runSuite (mkSuite "add.py" "add"
        [([PyValue.int 2, PyValue.int 3], PyValue.str "5")]) =
      .error PipelineError.typeError ∧
    processSuites [mkSuite "add.py" "add"
        [([PyValue.int 2, PyValue.int 3], PyValue.str "5")]] =
      ([], some PipelineError.typeError) :=
  ⟨rfl, rfl, rfl⟩

/-- C7 (amended): language resolution depends only on the uppercased file
extension (case-insensitive), and an unsupported extension makes the
critical "not supported" error propagate out of the uncaught suite loop of
`main`, aborting the entire run with the remaining suites unprocessed.
Processing never continues with the next suite: backend lookup fails for
every language in this source, so a suite whose extension does resolve also
aborts the run, having processed nothing. -/
theorem language_resolution_and_abort :
    (∀ ext1 ext2 : String, pyUpper ext1 = pyUpper ext2 →
      (from_extension ext1).toOption = (from_extension ext2).toOption) ∧
    (∀ (s : Suite) (rest : List Suite) (e : String),
      from_extension (fileExtension s.source_file_name) = .error e →
      processSuites (s :: rest) = ([], some (PipelineError.keyError e))) ∧
    (∀ lang : ProgrammingLanguage, ∃ e, get_backend lang = .error e) ∧
    (∀ (s : Suite) (rest : List Suite) (lang : ProgrammingLanguage)
        (e : PipelineError),
      from_extension (fileExtension s.source_file_name) = .ok lang →
      get_backend lang = .error e →
      processSuites (s :: rest) = ([], some e)) := by
  refine ⟨?_, ?_, ?_, ?_⟩
  · intro ext1 ext2 h
    simp only [from_extension, h]
    cases hx : extLookup (pyUpper ext2)
    · simp [hx, Except.toOption]
    · simp [hx, Except.toOption]
  · intro s rest e h
    simp only [processSuites, runSuite, h]
  · intro lang
    cases lang <;> exact ⟨_, rfl⟩
  · intro s rest lang e h1 h2
    simp only [processSuites, runSuite, h1, h2]

/-- Counterexample to C7 as stated: with a first suite of unsupported
extension `txt` followed by a supported `py` suite, the run stops at the
error — the second suite is not processed, so processing does not continue
with the next suite. -/
theorem unsupported_extension_counterexample :
    processSuites [mkSuite "f.txt" "g" [], mkSuite "g.py" "g" []] =
      ([], some (PipelineError.keyError (printCriticalMsg
        "\nFile extension \"txt\" not supported.\n"))) := rfl

/-- Witness for the amended C7: mixed-case `Py` resolves like `PY`; an
unsupported first suite aborts the loop; and a suite whose extension does
resolve aborts the run too, at backend lookup. -/
theorem language_resolution_and_abort_witness :
    (from_extension "Py").toOption = (from_extension "PY").toOption ∧
    processSuites [mkSuite "f.txt" "g" [], mkSuite "g.py" "g" []] =
      ([], some (PipelineError.keyError (printCriticalMsg
        "\nFile extension \"txt\" not supported.\n"))) ∧
    processSuites [mkSuite "g.py" "g" [], mkSuite "f.txt" "g" []] =
      ([], some PipelineError.typeError) :=
  ⟨language_resolution_and_abort.1 "Py" "PY" rfl,
   language_resolution_and_abort.2.1 (mkSuite "f.txt" "g" [])
     [mkSuite "g.py" "g" []]
     (printCriticalMsg "\nFile extension \"txt\" not supported.\n") rfl,
   language_resolution_and_abort.2.2.2 (mkSuite "g.py" "g" [])
     [mkSuite "f.txt" "g" []] ProgrammingLanguage.python
     PipelineError.typeError rfl rfl⟩

/-- C8: the comma-joined `str` rendering of a case's inputs that the Python
backend interpolates for the `args` placeholder of the per-case template is
exactly the argument-list representation rendered on the report's
"Input Params" line for that case. -/
theorem args_interpolation_roundtrip (fn : String) (i : Nat)
    (tc : TestCaseDescription) :
    ∃ a : String,
      (pythonTestSubst fn i tc).lookup "args" = some a ∧
      substituteParts (pythonTestSubst fn i tc) [TemplatePart.hole "args"]
        = some a ∧
      (to_color_string_lines tc)[2]? =
        some (colorize "Input Params:" Color.YELLOW ++ " " ++ a) := by
  refine ⟨String.intercalate ", " (tc.inputs.map PyValue.toStr), ?_, ?_, ?_⟩
  · rfl
  · have hl : (pythonTestSubst fn i tc).lookup "args"
        = some (String.intercalate ", " (tc.inputs.map PyValue.toStr)) := rfl
    simp [substituteParts, hl, String.append_empty]
  · rcases hstd : tc.stderr with _ | e
    · simp only [to_color_string_lines, hstd]
      split <;> simp
    · simp only [to_color_string_lines, hstd]
      split <;> split <;> simp

end CrystalBox
